import Mathlib

/-!
Shallow embedding of the tinyland-user-resolution package: a three-tier
user-identity resolver (database store, cached markdown profiles, static
noauth fallback) with a TTL-bounded profile cache.

Sources embedded: src/resolution.ts (resolveUser, resolveUserFromProfile,
userExists, getAllUserHandles, clearUserResolutionCache, RESERVED_ROUTES,
isReservedRoute), the types module (AdminUser, Profile, ResolvedUser) and
the config module (UserResolutionConfig, configure, getConfig, resetConfig).

Modelling choices: async functions become pure functions; a throwing
lookup becomes Except String; the module-level mutable cache becomes an
explicit CacheState threaded through calls; Date.now() becomes a Nat
parameter; JavaScript truthiness of optional strings (where the empty
string is falsy) is embedded by jsOr and jsOrOpt.
-/

namespace UserResolution

/-- Account record from the database or external auth system (types module). -/
structure AdminUser where
  id : String
  handle : String
  displayName : String
  role : String
  avatar : Option String := none
  bio : Option String := none
  pronouns : Option String := none
  location : Option String := none
  website : Option String := none
deriving DecidableEq

/-- Nested secondary-contact mapping inside profile metadata (types module). -/
structure SocialLinks where
  website : Option String := none
deriving DecidableEq

/-- Optional metadata fields of a profile record (types module). -/
structure ProfileMetadata where
  handle : Option String := none
  name : Option String := none
  displayName : Option String := none
  role : Option String := none
  avatar : Option String := none
  bio : Option String := none
  pronouns : Option String := none
  location : Option String := none
  website : Option String := none
  social : Option SocialLinks := none
deriving DecidableEq

/-- A profile loaded from markdown or another content source (types module). -/
structure Profile where
  slug : String
  metadata : ProfileMetadata
deriving DecidableEq

/-- The source tag of a resolved user: database, profile, or noauth fallback. -/
inductive Source where
  | database
  | profile
  | noauth
deriving DecidableEq

/-- Resolved user data from either database, profile markdown, or noauth
fallback (types module). Optional string fields model TypeScript fields
that may be undefined; a present empty string is some "". -/
structure ResolvedUser where
  handle : String
  displayName : String
  source : Source
  id : Option String := none
  role : String
  avatar : Option String := none
  bio : Option String := none
  pronouns : Option String := none
  location : Option String := none
  website : Option String := none
  dbUser : Option AdminUser := none
deriving DecidableEq

/-- Embedding of the JavaScript expression a || b where a is an optional
string and b is a string: a present non-empty string is truthy, a missing
value or the empty string is falsy and falls through to b. -/
def jsOr (a : Option String) (b : String) : String :=
  match a with
  | none => b
  | some s => if s = "" then b else s

/-- Embedding of the JavaScript expression a || b where both operands are
optional strings: the result is b whenever a is missing or empty. -/
def jsOrOpt (a b : Option String) : Option String :=
  match a with
  | none => b
  | some s => if s = "" then b else some s

/-- Dependency-injection configuration (config module). Lookups may throw,
embedded as Except String; isNoAuthMode is optional in TypeScript and a
missing value is falsy, so it is embedded as a Bool defaulting to false. -/
structure UserResolutionConfig where
  findUserByHandle : String → Except String (Option AdminUser)
  findAllUsers : Except String (List AdminUser)
  loadProfiles : Option String → Except String (List Profile)
  isNoAuthMode : Bool := false

/-- The error message thrown by getConfig when configure has not been called. -/
def notConfiguredMsg : String := "tinyland-user-resolution: call configure() before use"

/-- configure(c): replace the global configuration (config module). -/
def configure (_old : Option UserResolutionConfig) (c : UserResolutionConfig) :
    Option UserResolutionConfig :=
  some c

/-- resetConfig(): clear the global configuration back to unconfigured. -/
def resetConfig (_old : Option UserResolutionConfig) : Option UserResolutionConfig :=
  none

/-- getConfig(): return the configuration or throw the NotConfigured error. -/
def getConfig (gconfig : Option UserResolutionConfig) :
    Except String UserResolutionConfig :=
  match gconfig with
  | none => Except.error notConfiguredMsg
  | some c => Except.ok c

/-- Membership test of the profile-cache Map (JavaScript Map.has). -/
def mapHas (m : List (String × Option ResolvedUser)) (k : String) : Bool :=
  m.any (fun kv => kv.1 == k)

/-- Lookup in the profile-cache Map (JavaScript Map.get; none when absent). -/
def mapGet (m : List (String × Option ResolvedUser)) (k : String) :
    Option (Option ResolvedUser) :=
  (m.find? (fun kv => kv.1 == k)).map (fun kv => kv.2)

/-- Insertion into the profile-cache Map (JavaScript Map.set: overwrite the
existing entry in place, else append in insertion order). -/
def mapSet (m : List (String × Option ResolvedUser)) (k : String)
    (v : Option ResolvedUser) : List (String × Option ResolvedUser) :=
  if m.any (fun kv => kv.1 == k) then
    m.map (fun kv => if kv.1 == k then (k, v) else kv)
  else
    m ++ [(k, v)]

/-- The module-level mutable cache of resolution.ts: profileCache (null or a
Map from handle to ResolvedUser-or-null) and profileCacheTime. -/
structure CacheState where
  profileCache : Option (List (String × Option ResolvedUser))
  profileCacheTime : Nat
deriving DecidableEq

/-- The initial module state: profileCache = null, profileCacheTime = 0. -/
def initialCacheState : CacheState :=
  { profileCache := none, profileCacheTime := 0 }

/-- PROFILE_CACHE_TTL = 60 * 1000 (one minute, in milliseconds). -/
def PROFILE_CACHE_TTL : Nat := 60 * 1000

/-- Normalization of the first matching profile record into a ResolvedUser,
as written inline in resolveUserFromProfile (resolution.ts lines 101-114). -/
def normalizeProfile (profile : Profile) : ResolvedUser :=
  { handle := jsOr profile.metadata.handle profile.slug
    displayName := jsOr (jsOrOpt profile.metadata.name profile.metadata.displayName) profile.slug
    source := Source.profile
    role := jsOr profile.metadata.role "member"
    avatar := profile.metadata.avatar
    bio := profile.metadata.bio
    pronouns := profile.metadata.pronouns
    location := profile.metadata.location
    website := jsOrOpt profile.metadata.website (profile.metadata.social.bind SocialLinks.website) }

/-- Mapping of a database record to a ResolvedUser with source database
(resolution.ts lines 30-42): every field copied verbatim, the original
record attached as dbUser. -/
def dbToResolved (dbUser : AdminUser) : ResolvedUser :=
  { handle := dbUser.handle
    displayName := dbUser.displayName
    source := Source.database
    id := some dbUser.id
    role := dbUser.role
    avatar := dbUser.avatar
    bio := dbUser.bio
    pronouns := dbUser.pronouns
    location := dbUser.location
    website := dbUser.website
    dbUser := some dbUser }

/-- The fixed noauth fallback identity (resolution.ts lines 57-65). -/
def noauthAdmin : ResolvedUser :=
  { id := some "noauth-admin"
    handle := "admin"
    displayName := "Development Admin"
    source := Source.noauth
    role := "super_admin"
    avatar := some "/avatars/dev-admin.svg"
    bio := some "Local development super admin account" }

/-- Outcome of a resolution step: the returned value, the cache state after
the call, and whether the loadProfiles capability was invoked. -/
structure ResolveOutcome where
  result : Option ResolvedUser
  state : CacheState
  called : Bool
deriving DecidableEq

/-- The load-and-store step of resolveUserFromProfile (resolution.ts lines
93-122): invoke loadProfiles filtered by the handle; on error or empty
result store the known-absent marker (null) and return null; otherwise
normalize the first record, store and return it. The cache map written
into and the epoch time t are those in effect after the cache check. -/
def loadAndStore (config : UserResolutionConfig)
    (cache : List (String × Option ResolvedUser)) (t : Nat) (handle : String) :
    ResolveOutcome :=
  match config.loadProfiles (some handle) with
  | Except.error _ =>
      { result := none
        state := { profileCache := some (mapSet cache handle none), profileCacheTime := t }
        called := true }
  | Except.ok [] =>
      { result := none
        state := { profileCache := some (mapSet cache handle none), profileCacheTime := t }
        called := true }
  | Except.ok (profile :: _) =>
      { result := some (normalizeProfile profile)
        state := { profileCache := some (mapSet cache handle (some (normalizeProfile profile)))
                   profileCacheTime := t }
        called := true }

/-- resolveUserFromProfile (resolution.ts lines 77-123): if the cache exists
and now - profileCacheTime < PROFILE_CACHE_TTL and the map has the handle,
return the stored value (get(handle) || null) without any external call;
if the cache is fresh but the handle is uncached, load into the existing
map keeping the old epoch; otherwise rebuild with an empty map and epoch
now, then load. -/
def resolveUserFromProfile (config : UserResolutionConfig) (st : CacheState)
    (now : Nat) (handle : String) : ResolveOutcome :=
  match st.profileCache with
  | some cache =>
      if now - st.profileCacheTime < PROFILE_CACHE_TTL then
        if mapHas cache handle then
          { result := (mapGet cache handle).join, state := st, called := false }
        else
          loadAndStore config cache st.profileCacheTime handle
      else
        loadAndStore config [] now handle
  | none => loadAndStore config [] now handle

/-- Tiers 2 and 3 of resolveUser (resolution.ts lines 49-68): the profile
tier, then the noauth fallback for the exact handle "admin" when
isNoAuthMode is set, else null. -/
def resolveAfterStore (config : UserResolutionConfig) (st : CacheState)
    (now : Nat) (handle : String) : ResolveOutcome :=
  let p := resolveUserFromProfile config st now handle
  match p.result with
  | some profileUser => { result := some profileUser, state := p.state, called := p.called }
  | none =>
      if handle = "admin" ∧ config.isNoAuthMode = true then
        { result := some noauthAdmin, state := p.state, called := p.called }
      else
        { result := none, state := p.state, called := p.called }

/-- resolveUser after getConfig succeeded (resolution.ts lines 26-68): the
database tier first (a thrown lookup error is swallowed and treated as a
miss), then the profile tier and the fallback. -/
def resolveUserConfigured (config : UserResolutionConfig) (st : CacheState)
    (now : Nat) (handle : String) : ResolveOutcome :=
  match (match config.findUserByHandle handle with
         | Except.ok r => r
         | Except.error _ => none) with
  | some dbUser => { result := some (dbToResolved dbUser), state := st, called := false }
  | none => resolveAfterStore config st now handle

/-- resolveUser (resolution.ts lines 23-69): getConfig first, which throws
NotConfigured when unconfigured; every other error is caught internally. -/
def resolveUser (gconfig : Option UserResolutionConfig) (st : CacheState)
    (now : Nat) (handle : String) : Except String ResolveOutcome :=
  match gconfig with
  | none => Except.error notConfiguredMsg
  | some config => Except.ok (resolveUserConfigured config st now handle)

/-- userExists (resolution.ts lines 131-134): resolveUser, then a null test. -/
def userExists (gconfig : Option UserResolutionConfig) (st : CacheState)
    (now : Nat) (handle : String) : Except String (Bool × CacheState) :=
  match resolveUser gconfig st now handle with
  | Except.error e => Except.error e
  | Except.ok o => Except.ok (o.result.isSome, o.state)

/-- Set.add followed by Array.from: append a handle unless already present. -/
def addUnique (acc : List String) (x : String) : List String :=
  if acc.contains x then acc else acc ++ [x]

/-- getAllUserHandles after getConfig succeeded (resolution.ts lines
142-167): database handles then profile handles (metadata.handle falling
back to the slug), each tier-isolated against errors, deduplicated in
insertion order. -/
def getAllUserHandlesConfigured (config : UserResolutionConfig) : List String :=
  let dbHandles : List String :=
    match config.findAllUsers with
    | Except.ok users => users.map (fun u => u.handle)
    | Except.error _ => []
  let profileHandles : List String :=
    match config.loadProfiles none with
    | Except.ok profiles => profiles.map (fun p => jsOr p.metadata.handle p.slug)
    | Except.error _ => []
  List.foldl addUnique [] (dbHandles ++ profileHandles)

/-- getAllUserHandles: getConfig first, then the configured body. -/
def getAllUserHandles (gconfig : Option UserResolutionConfig) :
    Except String (List String) :=
  match gconfig with
  | none => Except.error notConfiguredMsg
  | some config => Except.ok (getAllUserHandlesConfigured config)

/-- clearUserResolutionCache (resolution.ts lines 172-175): profileCache =
null, profileCacheTime = 0. It never reads the configuration. -/
def clearUserResolutionCache (_st : CacheState) : CacheState :=
  { profileCache := none, profileCacheTime := 0 }

/-- The exported clearUserResolutionCache viewed at the public boundary with
the throwing operations: its body contains no throw and no getConfig call,
so it succeeds in every configuration state. -/
def clearCacheApi (_gconfig : Option UserResolutionConfig) (st : CacheState) :
    Except String CacheState :=
  Except.ok (clearUserResolutionCache st)

/-- RESERVED_ROUTES (resolution.ts lines 181-204). -/
def RESERVED_ROUTES : List String :=
  ["admin", "api", "auth", "legal", ".well-known", "_app", "__data",
   "socket.io", "health", "metrics", "blog", "products", "events", "notes",
   "videos", "programs", "explore", "settings", "contact", "about",
   "privacy", "terms"]

/-- isReservedRoute (resolution.ts lines 213-215): case-insensitive whole
segment membership in RESERVED_ROUTES. -/
def isReservedRoute (segment : String) : Bool :=
  RESERVED_ROUTES.contains segment.toLower

/-- A cached value has the shape every profile-tier value has at creation:
source profile, no id, no dbUser. -/
def profileShapedB (u : ResolvedUser) : Bool :=
  decide (u.source = Source.profile) && decide (u.id = none) && decide (u.dbUser = none)

/-- Well-formedness of the cache state: every stored non-null value is
profile shaped. Holds of the initial state and is preserved by resolution,
since only normalizeProfile outputs are ever stored. -/
def cacheWFB (st : CacheState) : Bool :=
  match st.profileCache with
  | none => true
  | some m => m.all (fun kv => match kv.2 with
      | none => true
      | some u => profileShapedB u)

/-! Concrete fixtures used by witnesses and counterexamples. -/

/-- A database record for the handle bob with role admin. -/
def bobUser : AdminUser :=
  { id := "1", handle := "bob", displayName := "Bob", role := "admin" }

/-- A profile record that also matches the handle bob. -/
def bobProfile : Profile :=
  { slug := "bob", metadata := { handle := some "bob", name := some "Bobby" } }

/-- Configuration whose store returns bob and whose profile source also
matches bob. -/
def cfgStoreBob : UserResolutionConfig :=
  { findUserByHandle := fun h => if h = "bob" then Except.ok (some bobUser) else Except.ok none
    findAllUsers := Except.ok [bobUser]
    loadProfiles := fun _ => Except.ok [bobProfile]
    isNoAuthMode := false }

/-- The profile record of the s2 scenario: slug s2, only displayName set. -/
def s2Profile : Profile :=
  { slug := "s2", metadata := { displayName := some "DN" } }

/-- Configuration with an empty store and a profile source returning the
single s2 record. -/
def cfgProfileS2 : UserResolutionConfig :=
  { findUserByHandle := fun _ => Except.ok none
    findAllUsers := Except.ok []
    loadProfiles := fun _ => Except.ok [s2Profile]
    isNoAuthMode := false }

/-- Configuration whose store lookup raises and whose profile source
matches bob. -/
def cfgStoreErr : UserResolutionConfig :=
  { findUserByHandle := fun _ => Except.error "db down"
    findAllUsers := Except.error "db down"
    loadProfiles := fun _ => Except.ok [bobProfile]
    isNoAuthMode := false }

/-- Configuration in which both the store and the profile source raise,
with the noauth flag enabled. -/
def cfgBothRaise : UserResolutionConfig :=
  { findUserByHandle := fun _ => Except.error "db down"
    findAllUsers := Except.error "db down"
    loadProfiles := fun _ => Except.error "fs down"
    isNoAuthMode := true }

/-- Configuration with an empty store, an empty profile source and the
noauth flag enabled. -/
def cfgEmptyNoauth : UserResolutionConfig :=
  { findUserByHandle := fun _ => Except.ok none
    findAllUsers := Except.ok []
    loadProfiles := fun _ => Except.ok []
    isNoAuthMode := true }

/-- Configuration with an empty store whose profile source raises, with the
noauth flag enabled. -/
def cfgProfileErrNoauth : UserResolutionConfig :=
  { findUserByHandle := fun _ => Except.ok none
    findAllUsers := Except.ok []
    loadProfiles := fun _ => Except.error "fs down"
    isNoAuthMode := true }

/-- Configuration with an empty store and an empty profile source. -/
def cfgAllEmpty : UserResolutionConfig :=
  { findUserByHandle := fun _ => Except.ok none
    findAllUsers := Except.ok []
    loadProfiles := fun _ => Except.ok []
    isNoAuthMode := false }

/-- A cache state whose map holds one fresh entry for the handle h,
created at epoch 0. -/
def stWithH : CacheState :=
  { profileCache := some [("h", some noauthAdmin)], profileCacheTime := 0 }

/-- A profile whose optional metadata fields are present but empty. -/
def emptyFieldsProfile : Profile :=
  { slug := "slug-ef"
    metadata := { handle := some ""
                  name := some ""
                  displayName := some "DN2"
                  role := some ""
                  website := some ""
                  social := some { website := some "social-site" } } }

/-! Helper lemmas about the resolution pipeline. -/

/-- Rewriting mapSet on the empty map. -/
theorem mapSet_nil (k : String) (v : Option ResolvedUser) :
    mapSet [] k v = [(k, v)] := by
  simp [mapSet]

/-- The load step always invokes loadProfiles, stores some value for the
handle under the epoch t, and returns that value. -/
theorem loadAndStore_char (config : UserResolutionConfig)
    (cache : List (String × Option ResolvedUser)) (t : Nat) (handle : String) :
    ∃ v, loadAndStore config cache t handle =
      { result := v
        state := { profileCache := some (mapSet cache handle v), profileCacheTime := t }
        called := true } := by
  cases hl : config.loadProfiles (some handle) with
  | error e => exact ⟨none, by simp [loadAndStore, hl]⟩
  | ok l =>
      cases l with
      | nil => exact ⟨none, by simp [loadAndStore, hl]⟩
      | cons p rest => exact ⟨some (normalizeProfile p), by simp [loadAndStore, hl]⟩

/-- Every value returned by the load step is a normalizeProfile output. -/
theorem loadAndStore_shape (config : UserResolutionConfig)
    (cache : List (String × Option ResolvedUser)) (t : Nat) (handle : String)
    (u : ResolvedUser) (hres : (loadAndStore config cache t handle).result = some u) :
    u.source = Source.profile ∧ u.id = none ∧ u.dbUser = none := by
  cases hl : config.loadProfiles (some handle) with
  | error e => rw [loadAndStore, hl] at hres; exact absurd hres (by simp)
  | ok l =>
      cases l with
      | nil => rw [loadAndStore, hl] at hres; exact absurd hres (by simp)
      | cons p rest =>
          rw [loadAndStore, hl] at hres
          simp only [Option.some.injEq] at hres
          subst hres
          exact ⟨rfl, rfl, rfl⟩

/-- The profile tier leaves the cache state exactly as the cache operation
leaves it. -/
theorem afterStore_state (config : UserResolutionConfig) (st : CacheState)
    (now : Nat) (handle : String) :
    (resolveAfterStore config st now handle).state =
      (resolveUserFromProfile config st now handle).state := by
  simp only [resolveAfterStore]
  cases hr : (resolveUserFromProfile config st now handle).result with
  | some u => rfl
  | none => by_cases hc : handle = "admin" ∧ config.isNoAuthMode = true <;> simp [hc]

/-- The profile tier invokes loadProfiles exactly when the cache operation
does; the fallback tier never invokes it. -/
theorem afterStore_called (config : UserResolutionConfig) (st : CacheState)
    (now : Nat) (handle : String) :
    (resolveAfterStore config st now handle).called =
      (resolveUserFromProfile config st now handle).called := by
  simp only [resolveAfterStore]
  cases hr : (resolveUserFromProfile config st now handle).result with
  | some u => rfl
  | none => by_cases hc : handle = "admin" ∧ config.isNoAuthMode = true <;> simp [hc]

/-- When the profile tier answers, the overall tail result is that answer. -/
theorem afterStore_of_profile_some (config : UserResolutionConfig)
    (st : CacheState) (now : Nat) (handle : String) (u : ResolvedUser)
    (hp : (resolveUserFromProfile config st now handle).result = some u) :
    (resolveAfterStore config st now handle).result = some u := by
  simp only [resolveAfterStore]
  rw [hp]

/-- When the profile tier misses, the tail result is the noauth fallback
rule applied to the handle and the flag. -/
theorem afterStore_of_profile_none (config : UserResolutionConfig)
    (st : CacheState) (now : Nat) (handle : String)
    (hp : (resolveUserFromProfile config st now handle).result = none) :
    (resolveAfterStore config st now handle).result =
      (if handle = "admin" ∧ config.isNoAuthMode = true then some noauthAdmin else none) := by
  simp only [resolveAfterStore]
  rw [hp]
  by_cases hc : handle = "admin" ∧ config.isNoAuthMode = true
  · simp only [if_pos hc]
  · simp only [if_neg hc]

/-- A store miss reduces resolution to the profile and fallback tiers. -/
theorem resolve_store_miss (config : UserResolutionConfig) (st : CacheState)
    (now : Nat) (handle : String)
    (h : config.findUserByHandle handle = Except.ok none) :
    resolveUserConfigured config st now handle = resolveAfterStore config st now handle := by
  unfold resolveUserConfigured
  rw [h]

/-- A store error is swallowed and reduces resolution to the profile and
fallback tiers, exactly like a store miss. -/
theorem resolve_store_error (config : UserResolutionConfig) (st : CacheState)
    (now : Nat) (handle : String) (e : String)
    (h : config.findUserByHandle handle = Except.error e) :
    resolveUserConfigured config st now handle = resolveAfterStore config st now handle := by
  unfold resolveUserConfigured
  rw [h]

/-- With no cache built yet, the profile tier is the load step on an empty
map with epoch now. -/
theorem fromProfile_of_none (config : UserResolutionConfig) (st : CacheState)
    (now : Nat) (handle : String) (hpc : st.profileCache = none) :
    resolveUserFromProfile config st now handle = loadAndStore config [] now handle := by
  cases st with
  | mk pc t =>
      simp only at hpc
      subst hpc
      rfl

/-- Spelling out the cache-check branch structure of the profile tier. -/
theorem fromProfile_of_some (config : UserResolutionConfig)
    (cache : List (String × Option ResolvedUser)) (t now : Nat) (handle : String) :
    resolveUserFromProfile config ⟨some cache, t⟩ now handle =
      if now - t < PROFILE_CACHE_TTL then
        (if mapHas cache handle then
          { result := (mapGet cache handle).join, state := ⟨some cache, t⟩, called := false }
        else loadAndStore config cache t handle)
      else loadAndStore config [] now handle := rfl

/-- Every value the profile tier can return out of a well-formed state is
profile shaped: it has source profile and carries no id and no dbUser. -/
theorem fromProfile_shape (config : UserResolutionConfig) (st : CacheState)
    (now : Nat) (handle : String) (u : ResolvedUser)
    (hwf : cacheWFB st = true)
    (hres : (resolveUserFromProfile config st now handle).result = some u) :
    u.source = Source.profile ∧ u.id = none ∧ u.dbUser = none := by
  cases st with
  | mk pc t =>
      cases pc with
      | none =>
          rw [fromProfile_of_none config ⟨none, t⟩ now handle rfl] at hres
          exact loadAndStore_shape config [] now handle u hres
      | some cache =>
          rw [fromProfile_of_some] at hres
          by_cases hfresh : now - t < PROFILE_CACHE_TTL
          · rw [if_pos hfresh] at hres
            by_cases hhas : mapHas cache handle = true
            · rw [if_pos hhas] at hres
              have hjoin : (mapGet cache handle).join = some u := hres
              have hget : mapGet cache handle = some (some u) := by
                cases hg : mapGet cache handle with
                | none => rw [hg] at hjoin; exact absurd hjoin (by simp)
                | some v =>
                    rw [hg] at hjoin
                    cases v with
                    | none => exact absurd hjoin (by simp)
                    | some w =>
                        have hw : w = u := by simpa using hjoin
                        rw [hw]
              have hfind : ∃ kv, cache.find? (fun kv => kv.1 == handle) = some kv ∧ kv.2 = some u := by
                unfold mapGet at hget
                cases hf : cache.find? (fun kv => kv.1 == handle) with
                | none => rw [hf] at hget; exact absurd hget (by simp)
                | some kv =>
                    rw [hf] at hget
                    simp at hget
                    exact ⟨kv, rfl, hget⟩
              obtain ⟨kv, hf, hkv⟩ := hfind
              have hmem : kv ∈ cache := List.mem_of_find?_eq_some hf
              have hall := List.all_eq_true.mp hwf kv hmem
              rw [hkv] at hall
              simp only [profileShapedB, Bool.and_eq_true, decide_eq_true_eq] at hall
              exact ⟨hall.1.1, hall.1.2, hall.2⟩
            · rw [if_neg hhas] at hres
              exact loadAndStore_shape config cache t handle u hres
          · rw [if_neg hfresh] at hres
            exact loadAndStore_shape config [] now handle u hres

/-- After a store miss on the empty initial state, the cache holds exactly
one entry, for the queried handle, under epoch t1. -/
theorem resolve_initial_state (config : UserResolutionConfig) (t1 : Nat) (handle : String)
    (hstore : config.findUserByHandle handle = Except.ok none) :
    ∃ v, (resolveUserConfigured config initialCacheState t1 handle).state =
      { profileCache := some [(handle, v)], profileCacheTime := t1 } := by
  rw [resolve_store_miss config initialCacheState t1 handle hstore, afterStore_state,
    fromProfile_of_none config initialCacheState t1 handle rfl]
  obtain ⟨v, hv⟩ := loadAndStore_char config [] t1 handle
  rw [mapSet_nil] at hv
  exact ⟨v, by rw [hv]⟩

/-- A second store-missing resolution against a one-entry fresh cache is a
pure cache hit: loadProfiles is not invoked. -/
theorem resolve_second_call_cached (config : UserResolutionConfig) (t1 t2 : Nat)
    (handle : String) (v : Option ResolvedUser)
    (hstore : config.findUserByHandle handle = Except.ok none)
    (hT : t2 - t1 < PROFILE_CACHE_TTL) :
    (resolveUserConfigured config
      { profileCache := some [(handle, v)], profileCacheTime := t1 } t2 handle).called = false := by
  rw [resolve_store_miss config _ t2 handle hstore, afterStore_called, fromProfile_of_some,
    if_pos hT, if_pos (show mapHas [(handle, v)] handle = true by simp [mapHas])]

/-- Shape of every answer produced by the profile and fallback tiers out of
a well-formed cache state. -/
theorem resolveTail_shape (config : UserResolutionConfig) (st : CacheState)
    (now : Nat) (handle : String) (u : ResolvedUser)
    (hwf : cacheWFB st = true)
    (hres : (resolveAfterStore config st now handle).result = some u) :
    (u.source = Source.database → ∃ d, u.dbUser = some d ∧ u.id = some d.id)
    ∧ (u.source = Source.profile → u.id = none ∧ u.dbUser = none)
    ∧ (u.source = Source.noauth → u.id = some "noauth-admin" ∧ u.dbUser = none) := by
  cases hp : (resolveUserFromProfile config st now handle).result with
  | some pu =>
      rw [afterStore_of_profile_some config st now handle pu hp] at hres
      injection hres with h3
      subst h3
      obtain ⟨hs, hid, hdbu⟩ := fromProfile_shape config st now handle pu hwf hp
      refine ⟨?_, fun _ => ⟨hid, hdbu⟩, ?_⟩
      · intro h; rw [hs] at h; exact nomatch h
      · intro h; rw [hs] at h; exact nomatch h
  | none =>
      rw [afterStore_of_profile_none config st now handle hp] at hres
      by_cases hc : handle = "admin" ∧ config.isNoAuthMode = true
      · rw [if_pos hc] at hres
        injection hres with h3
        subst h3
        refine ⟨fun h => ?_, fun h => ?_, fun _ => ⟨rfl, rfl⟩⟩
        · exact absurd h (by decide)
        · exact absurd h (by decide)
      · rw [if_neg hc] at hres
        exact absurd hres (by simp)

/-- C1: whenever findUserByHandle returns a record, resolveUser returns the
store-backed identity built from that record, the cache state is untouched
and the profile-listing capability is not invoked, so neither the profile
tier nor the static fallback is consulted; this holds for every
configuration, in particular when a matching profile record exists. -/
theorem c1_store_precedence (config : UserResolutionConfig) (st : CacheState)
    (now : Nat) (handle : String) (dbUser : AdminUser)
    (hdb : config.findUserByHandle handle = Except.ok (some dbUser)) :
    resolveUserConfigured config st now handle =
      { result := some (dbToResolved dbUser), state := st, called := false }
    ∧ (dbToResolved dbUser).source = Source.database
    ∧ (dbToResolved dbUser).dbUser = some dbUser
    ∧ (dbToResolved dbUser).id = some dbUser.id
    ∧ (dbToResolved dbUser).handle = dbUser.handle
    ∧ (dbToResolved dbUser).displayName = dbUser.displayName
    ∧ (dbToResolved dbUser).role = dbUser.role := by
  refine ⟨?_, rfl, rfl, rfl, rfl, rfl, rfl⟩
  unfold resolveUserConfigured
  rw [hdb]

/-- C1 witness: the bob scenario, where the store returns handle bob with
role admin and the profile source also matches bob; resolving bob yields
the store-backed identity without invoking the profile listing. -/
theorem c1_store_precedence_witness :
    cfgStoreBob.findUserByHandle "bob" = Except.ok (some bobUser)
    ∧ (resolveUserConfigured cfgStoreBob initialCacheState 0 "bob" =
        { result := some (dbToResolved bobUser), state := initialCacheState, called := false }
      ∧ (dbToResolved bobUser).source = Source.database
      ∧ (dbToResolved bobUser).dbUser = some bobUser
      ∧ (dbToResolved bobUser).id = some bobUser.id
      ∧ (dbToResolved bobUser).handle = bobUser.handle
      ∧ (dbToResolved bobUser).displayName = bobUser.displayName
      ∧ (dbToResolved bobUser).role = bobUser.role) :=
  ⟨rfl, c1_store_precedence cfgStoreBob initialCacheState 0 "bob" bobUser rfl⟩

/-- C4: when the store lookup raises, the error is swallowed and resolution
behaves exactly as the profile and fallback tiers alone; in particular when
the profile-listing capability returns a matching record on a cold cache,
resolveUser returns the profile-backed identity rather than raising. -/
theorem c4_store_error_degrades (config : UserResolutionConfig) (st : CacheState)
    (now : Nat) (handle : String) (e : String)
    (herr : config.findUserByHandle handle = Except.error e) :
    resolveUser (some config) st now handle =
      Except.ok (resolveAfterStore config st now handle)
    ∧ (∀ p rest, st.profileCache = none →
        config.loadProfiles (some handle) = Except.ok (p :: rest) →
        (resolveUserConfigured config st now handle).result = some (normalizeProfile p)
        ∧ (normalizeProfile p).source = Source.profile) := by
  have h1 : resolveUserConfigured config st now handle =
      resolveAfterStore config st now handle :=
    resolve_store_error config st now handle e herr
  constructor
  · show Except.ok (resolveUserConfigured config st now handle) = _
    rw [h1]
  · intro p rest hpc hload
    refine ⟨?_, rfl⟩
    rw [h1]
    apply afterStore_of_profile_some
    rw [fromProfile_of_none config st now handle hpc]
    rw [loadAndStore, hload]

/-- C4 witness: the store raises, the profile source returns the bob
record; resolving bob yields the profile-backed identity. -/
theorem c4_store_error_degrades_witness :
    cfgStoreErr.findUserByHandle "bob" = Except.error "db down"
    ∧ initialCacheState.profileCache = none
    ∧ cfgStoreErr.loadProfiles (some "bob") = Except.ok [bobProfile]
    ∧ (resolveUserConfigured cfgStoreErr initialCacheState 0 "bob").result =
        some (normalizeProfile bobProfile)
    ∧ (normalizeProfile bobProfile).source = Source.profile :=
  ⟨rfl, rfl, rfl,
    ((c4_store_error_degrades cfgStoreErr initialCacheState 0 "bob" "db down" rfl).2
      bobProfile [] rfl rfl).1,
    ((c4_store_error_degrades cfgStoreErr initialCacheState 0 "bob" "db down" rfl).2
      bobProfile [] rfl rfl).2⟩

/-- C5: when the store tier misses or raises and the profile tier yields
nothing, resolveUser returns the fixed noauth fallback identity exactly
when the handle is the literal "admin" and the flag is enabled, and
returns absent (an ok result, not an error) otherwise; the fallback
identity carries id noauth-admin, display name Development Admin and role
super_admin. -/
theorem c5_fallback_iff (config : UserResolutionConfig) (st : CacheState)
    (now : Nat) (handle : String)
    (hstore : config.findUserByHandle handle = Except.ok none ∨
      ∃ e, config.findUserByHandle handle = Except.error e)
    (hprof : (resolveUserFromProfile config st now handle).result = none) :
    ((resolveUserConfigured config st now handle).result = some noauthAdmin ↔
      (handle = "admin" ∧ config.isNoAuthMode = true))
    ∧ (¬ (handle = "admin" ∧ config.isNoAuthMode = true) →
        (resolveUserConfigured config st now handle).result = none)
    ∧ resolveUser (some config) st now handle =
        Except.ok (resolveUserConfigured config st now handle)
    ∧ noauthAdmin.id = some "noauth-admin"
    ∧ noauthAdmin.displayName = "Development Admin"
    ∧ noauthAdmin.role = "super_admin"
    ∧ noauthAdmin.source = Source.noauth := by
  have h1 : resolveUserConfigured config st now handle =
      resolveAfterStore config st now handle := by
    rcases hstore with h | ⟨e, h⟩
    · exact resolve_store_miss config st now handle h
    · exact resolve_store_error config st now handle e h
  have h2 : (resolveUserConfigured config st now handle).result =
      (if handle = "admin" ∧ config.isNoAuthMode = true then some noauthAdmin else none) := by
    rw [h1]
    exact afterStore_of_profile_none config st now handle hprof
  refine ⟨?_, ?_, rfl, rfl, rfl, rfl, rfl⟩
  · rw [h2]
    constructor
    · intro h
      by_cases hc : handle = "admin" ∧ config.isNoAuthMode = true
      · exact hc
      · rw [if_neg hc] at h
        exact absurd h (by simp)
    · intro hc
      rw [if_pos hc]
  · intro hc
    rw [h2, if_neg hc]

/-- C5 witness: both the store and the profile source raise, the flag is
enabled; resolving the handle admin yields the fallback identity, and
resolving any other handle under the same outage yields absent. -/
theorem c5_fallback_iff_witness :
    (∃ e, cfgBothRaise.findUserByHandle "admin" = Except.error e)
    ∧ (resolveUserFromProfile cfgBothRaise initialCacheState 0 "admin").result = none
    ∧ ((resolveUserConfigured cfgBothRaise initialCacheState 0 "admin").result =
        some noauthAdmin ↔ ("admin" = "admin" ∧ cfgBothRaise.isNoAuthMode = true))
    ∧ (resolveUserConfigured cfgBothRaise initialCacheState 0 "admin").result =
        some noauthAdmin
    ∧ (resolveUserConfigured cfgBothRaise initialCacheState 0 "alice").result = none :=
  ⟨⟨"db down", rfl⟩, by decide,
    (c5_fallback_iff cfgBothRaise initialCacheState 0 "admin"
      (Or.inr ⟨"db down", rfl⟩) (by decide)).1,
    ((c5_fallback_iff cfgBothRaise initialCacheState 0 "admin"
      (Or.inr ⟨"db down", rfl⟩) (by decide)).1).mpr ⟨rfl, rfl⟩,
    (c5_fallback_iff cfgBothRaise initialCacheState 0 "alice"
      (Or.inr ⟨"db down", rfl⟩) (by decide)).2.1 (by decide)⟩

/-- C7: whenever the cache epoch is missing or no longer fresh, the profile
tier discards the entire entry mapping, starts a new epoch at now, and
invokes the profile-listing capability: afterwards the map holds an entry
for the queried handle only, so every other previously cached handle is
gone; consequently a resolveUser call whose store tier misses also invokes
the capability. -/
theorem c7_epoch_rebuild (config : UserResolutionConfig) (st : CacheState)
    (now : Nat) (handle : String)
    (hexp : st.profileCache = none ∨ ¬ (now - st.profileCacheTime < PROFILE_CACHE_TTL)) :
    (resolveUserFromProfile config st now handle).called = true
    ∧ (resolveUserFromProfile config st now handle).state.profileCacheTime = now
    ∧ (∃ m, (resolveUserFromProfile config st now handle).state.profileCache = some m
        ∧ mapHas m handle = true
        ∧ ∀ k, k ≠ handle → mapHas m k = false)
    ∧ (config.findUserByHandle handle = Except.ok none →
        (resolveUserConfigured config st now handle).called = true) := by
  have hp : resolveUserFromProfile config st now handle = loadAndStore config [] now handle := by
    cases st with
    | mk pc t =>
        cases pc with
        | none => rfl
        | some cache =>
            rcases hexp with h | h
            · exact absurd h (by simp)
            · rw [fromProfile_of_some, if_neg h]
  obtain ⟨v, hv⟩ := loadAndStore_char config [] now handle
  rw [mapSet_nil] at hv
  refine ⟨by rw [hp, hv], by rw [hp, hv], ⟨[(handle, v)], by rw [hp, hv], ?_, ?_⟩, ?_⟩
  · simp [mapHas]
  · intro k hk
    simp [mapHas]
    exact fun h => hk h.symm
  · intro hmiss
    rw [resolve_store_miss config st now handle hmiss, afterStore_called, hp, hv]

/-- C7 witness: the handle h is fresh-cached under epoch 0; at time 61000
the window has expired, so resolving h rebuilds the cache and calls the
profile listing again, discarding every other key. -/
theorem c7_epoch_rebuild_witness :
    (stWithH.profileCache = none ∨ ¬ (61000 - stWithH.profileCacheTime < PROFILE_CACHE_TTL))
    ∧ (resolveUserFromProfile cfgAllEmpty stWithH 61000 "h").called = true
    ∧ (resolveUserFromProfile cfgAllEmpty stWithH 61000 "h").state.profileCacheTime = 61000
    ∧ (cfgAllEmpty.findUserByHandle "h" = Except.ok none →
        (resolveUserConfigured cfgAllEmpty stWithH 61000 "h").called = true) :=
  ⟨Or.inr (by decide),
    (c7_epoch_rebuild cfgAllEmpty stWithH 61000 "h" (Or.inr (by decide))).1,
    (c7_epoch_rebuild cfgAllEmpty stWithH 61000 "h" (Or.inr (by decide))).2.1,
    (c7_epoch_rebuild cfgAllEmpty stWithH 61000 "h" (Or.inr (by decide))).2.2.2⟩

/-- C2 (amended): freshness is boundary exclusive. When an epoch exists,
now minus the epoch is strictly below the TTL and the handle is cached,
the profile tier returns the stored value (possibly the known-absent
marker) without invoking loadProfiles; consequently, resolving the same
handle twice strictly within the TTL window with the store tier missing
invokes loadProfiles at most once: the second call does not invoke it. -/
theorem c2_cache_freshness :
    (∀ (config : UserResolutionConfig) (st : CacheState) (now : Nat) (handle : String)
        (m : List (String × Option ResolvedUser)),
      st.profileCache = some m →
      now - st.profileCacheTime < PROFILE_CACHE_TTL →
      mapHas m handle = true →
      resolveUserFromProfile config st now handle =
        { result := (mapGet m handle).join, state := st, called := false })
    ∧ (∀ (config : UserResolutionConfig) (t1 t2 : Nat) (handle : String),
      config.findUserByHandle handle = Except.ok none →
      t2 - t1 < PROFILE_CACHE_TTL →
      (resolveUserConfigured config
        (resolveUserConfigured config initialCacheState t1 handle).state t2 handle).called = false) := by
  constructor
  · intro config st now handle m hm hfresh hhas
    cases st with
    | mk pc t =>
        simp only at hm
        subst hm
        rw [fromProfile_of_some, if_pos hfresh, if_pos hhas]
  · intro config t1 t2 handle hstore hT
    obtain ⟨v, hst⟩ := resolve_initial_state config t1 handle hstore
    rw [hst]
    exact resolve_second_call_cached config t1 t2 handle v hstore hT

/-- C2 counterexample: the boundary is not inclusive. With the handle h
cached under epoch 0, at now = 60000 the elapsed time equals the TTL, the
claim asserts a hit with no external call, yet the code rebuilds the cache
and invokes loadProfiles. -/
theorem c2_boundary_counterexample :
    stWithH.profileCache = some [("h", some noauthAdmin)]
    ∧ 60000 - stWithH.profileCacheTime ≤ PROFILE_CACHE_TTL
    ∧ mapHas [("h", some noauthAdmin)] "h" = true
    ∧ (resolveUserFromProfile cfgAllEmpty stWithH 60000 "h").called = true :=
  ⟨rfl, by decide, by decide, by decide⟩

/-- C2 witness: a hit at 59999 ms returns the stored value without calling
loadProfiles, and a second resolution 30000 ms after a first one from the
cold state does not call loadProfiles again. -/
theorem c2_cache_freshness_witness :
    (stWithH.profileCache = some [("h", some noauthAdmin)]
      ∧ 59999 - stWithH.profileCacheTime < PROFILE_CACHE_TTL
      ∧ mapHas [("h", some noauthAdmin)] "h" = true
      ∧ resolveUserFromProfile cfgAllEmpty stWithH 59999 "h" =
          { result := (mapGet [("h", some noauthAdmin)] "h").join
            state := stWithH, called := false })
    ∧ (cfgAllEmpty.findUserByHandle "x" = Except.ok none
      ∧ 30000 - 0 < PROFILE_CACHE_TTL
      ∧ (resolveUserConfigured cfgAllEmpty
          (resolveUserConfigured cfgAllEmpty initialCacheState 0 "x").state 30000 "x").called = false) :=
  ⟨⟨rfl, by decide, by decide,
      c2_cache_freshness.1 cfgAllEmpty stWithH 59999 "h" [("h", some noauthAdmin)]
        rfl (by decide) (by decide)⟩,
    ⟨rfl, by decide, c2_cache_freshness.2 cfgAllEmpty 0 30000 "x" rfl (by decide)⟩⟩

/-- C3 counterexample: the static fallback identity carries an id. With an
empty store, an empty profile source and the flag enabled, resolving admin
yields the noauth identity whose source tag is not database and whose id
field is populated with noauth-admin, contradicting the claim that only
store-backed identities carry an id. -/
theorem c3_counterexample :
    (resolveUserConfigured cfgEmptyNoauth initialCacheState 0 "admin").result = some noauthAdmin
    ∧ noauthAdmin.source = Source.noauth
    ∧ noauthAdmin.id = some "noauth-admin" :=
  ⟨by decide, rfl, rfl⟩

/-- C3 (amended): out of a well-formed cache state, a resolved identity
carries a dbUser reference exactly in the store-backed case, where the id
is the record id; a profile-backed identity carries neither id nor dbUser;
a static-fallback identity carries the fixed id noauth-admin and no
dbUser. -/
theorem c3_source_field_invariant (config : UserResolutionConfig) (st : CacheState)
    (now : Nat) (handle : String) (u : ResolvedUser)
    (hwf : cacheWFB st = true)
    (hres : (resolveUserConfigured config st now handle).result = some u) :
    (u.source = Source.database → ∃ d, u.dbUser = some d ∧ u.id = some d.id)
    ∧ (u.source = Source.profile → u.id = none ∧ u.dbUser = none)
    ∧ (u.source = Source.noauth → u.id = some "noauth-admin" ∧ u.dbUser = none) := by
  unfold resolveUserConfigured at hres
  cases hdb : config.findUserByHandle handle with
  | ok r =>
      rw [hdb] at hres
      cases r with
      | some d =>
          have h2 : some (dbToResolved d) = some u := hres
          injection h2 with h3
          subst h3
          refine ⟨fun _ => ⟨d, rfl, rfl⟩, fun h => ?_, fun h => ?_⟩
          · simp [dbToResolved] at h
          · simp [dbToResolved] at h
      | none =>
          have h2 : (resolveAfterStore config st now handle).result = some u := hres
          exact resolveTail_shape config st now handle u hwf h2
  | error e =>
      rw [hdb] at hres
      have h2 : (resolveAfterStore config st now handle).result = some u := hres
      exact resolveTail_shape config st now handle u hwf h2

/-- C3 witness: the amended invariant applied to the store-backed bob
resolution out of the well-formed initial state. -/
theorem c3_source_field_invariant_witness :
    cacheWFB initialCacheState = true
    ∧ (resolveUserConfigured cfgStoreBob initialCacheState 0 "bob").result =
        some (dbToResolved bobUser)
    ∧ ((dbToResolved bobUser).source = Source.database →
        ∃ d, (dbToResolved bobUser).dbUser = some d ∧ (dbToResolved bobUser).id = some d.id)
    ∧ ((dbToResolved bobUser).source = Source.profile →
        (dbToResolved bobUser).id = none ∧ (dbToResolved bobUser).dbUser = none)
    ∧ ((dbToResolved bobUser).source = Source.noauth →
        (dbToResolved bobUser).id = some "noauth-admin" ∧ (dbToResolved bobUser).dbUser = none) :=
  ⟨by decide, by decide,
    (c3_source_field_invariant cfgStoreBob initialCacheState 0 "bob" (dbToResolved bobUser)
      (by decide) (by decide)).1,
    (c3_source_field_invariant cfgStoreBob initialCacheState 0 "bob" (dbToResolved bobUser)
      (by decide) (by decide)).2.1,
    (c3_source_field_invariant cfgStoreBob initialCacheState 0 "bob" (dbToResolved bobUser)
      (by decide) (by decide)).2.2⟩

/-- C6 counterexample: resolution does not always return absent for a
handle with no store record whose profile listing raises. For the handle
admin with the noauth flag enabled, the store misses and the listing
raises, yet resolution returns the static fallback identity rather than
absent. -/
theorem c6_counterexample :
    cfgProfileErrNoauth.findUserByHandle "admin" = Except.ok none
    ∧ cfgProfileErrNoauth.loadProfiles (some "admin") = Except.error "fs down"
    ∧ (resolveUserConfigured cfgProfileErrNoauth initialCacheState 0 "admin").result =
        some noauthAdmin :=
  ⟨rfl, rfl, by decide⟩

/-- C6 (amended): for a handle with no store record whose profile listing
is empty or raises, the known-absent marker is stored, a second resolution
strictly within the TTL window does not invoke loadProfiles again, and
both resolutions return absent unless the handle is admin with the noauth
flag enabled, in which case both return the static fallback identity. -/
theorem c6_negative_caching (config : UserResolutionConfig) (t1 t2 : Nat) (handle : String)
    (hstore : config.findUserByHandle handle = Except.ok none)
    (hload : config.loadProfiles (some handle) = Except.ok [] ∨
      ∃ e, config.loadProfiles (some handle) = Except.error e)
    (hT : t2 - t1 < PROFILE_CACHE_TTL) :
    (resolveUserConfigured config initialCacheState t1 handle).called = true
    ∧ (resolveUserConfigured config initialCacheState t1 handle).state =
        { profileCache := some [(handle, none)], profileCacheTime := t1 }
    ∧ (resolveUserConfigured config
        (resolveUserConfigured config initialCacheState t1 handle).state t2 handle).called = false
    ∧ (resolveUserConfigured config initialCacheState t1 handle).result =
        (if handle = "admin" ∧ config.isNoAuthMode = true then some noauthAdmin else none)
    ∧ (resolveUserConfigured config
        (resolveUserConfigured config initialCacheState t1 handle).state t2 handle).result =
        (if handle = "admin" ∧ config.isNoAuthMode = true then some noauthAdmin else none) := by
  have hload2 : loadAndStore config [] t1 handle =
      { result := none
        state := { profileCache := some [(handle, none)], profileCacheTime := t1 }
        called := true } := by
    rcases hload with h | ⟨e, h⟩ <;> simp [loadAndStore, h, mapSet]
  have hp1 : resolveUserFromProfile config initialCacheState t1 handle =
      { result := none
        state := { profileCache := some [(handle, none)], profileCacheTime := t1 }
        called := true } := by
    rw [fromProfile_of_none config initialCacheState t1 handle rfl, hload2]
  have h1 : resolveUserConfigured config initialCacheState t1 handle =
      resolveAfterStore config initialCacheState t1 handle :=
    resolve_store_miss config initialCacheState t1 handle hstore
  have hstate1 : (resolveUserConfigured config initialCacheState t1 handle).state =
      { profileCache := some [(handle, none)], profileCacheTime := t1 } := by
    rw [h1, afterStore_state, hp1]
  have hjoin : (mapGet [(handle, (none : Option ResolvedUser))] handle).join = none := by
    simp [mapGet]
  have hp2 : resolveUserFromProfile config
      { profileCache := some [(handle, none)], profileCacheTime := t1 } t2 handle =
      { result := none
        state := { profileCache := some [(handle, none)], profileCacheTime := t1 }
        called := false } := by
    rw [fromProfile_of_some, if_pos hT,
      if_pos (show mapHas [(handle, (none : Option ResolvedUser))] handle = true by simp [mapHas])]
    rw [hjoin]
  refine ⟨?_, hstate1, ?_, ?_, ?_⟩
  · rw [h1, afterStore_called, hp1]
  · rw [hstate1, resolve_store_miss config _ t2 handle hstore, afterStore_called, hp2]
  · rw [h1]
    exact afterStore_of_profile_none config initialCacheState t1 handle (by rw [hp1])
  · rw [hstate1, resolve_store_miss config _ t2 handle hstore]
    exact afterStore_of_profile_none config _ t2 handle (by rw [hp2])

/-- C6 witness: the handle alice has no store record and the listing
raises; the first resolution stores the known-absent marker and calls the
listing, the second resolution 30000 ms later does not call it, and both
return absent. -/
theorem c6_negative_caching_witness :
    cfgProfileErrNoauth.findUserByHandle "alice" = Except.ok none
    ∧ (∃ e, cfgProfileErrNoauth.loadProfiles (some "alice") = Except.error e)
    ∧ 30000 - 0 < PROFILE_CACHE_TTL
    ∧ (resolveUserConfigured cfgProfileErrNoauth initialCacheState 0 "alice").called = true
    ∧ (resolveUserConfigured cfgProfileErrNoauth
        (resolveUserConfigured cfgProfileErrNoauth initialCacheState 0 "alice").state
        30000 "alice").called = false
    ∧ (resolveUserConfigured cfgProfileErrNoauth initialCacheState 0 "alice").result = none :=
  ⟨rfl, ⟨"fs down", rfl⟩, by decide,
    (c6_negative_caching cfgProfileErrNoauth 0 30000 "alice" rfl
      (Or.inr ⟨"fs down", rfl⟩) (by decide)).1,
    (c6_negative_caching cfgProfileErrNoauth 0 30000 "alice" rfl
      (Or.inr ⟨"fs down", rfl⟩) (by decide)).2.2.1,
    by decide⟩

/-- C8: on a non-empty listing result with a store miss and a cold cache,
resolution returns the normalization of the first record, where handle is
metadata.handle else the slug, display name is metadata.name, else
metadata.displayName, else the slug in that priority order, role is
metadata.role else the literal member, website is metadata.website, else
the nested secondary-contact website, else absent, the remaining optional
fields are copied verbatim, and the source tag is profile. A field that is
present but empty counts as absent for the fallback chains. -/
theorem c8_profile_normalization (config : UserResolutionConfig) (st : CacheState)
    (now : Nat) (handle : String) (p : Profile) (rest : List Profile)
    (hstore : config.findUserByHandle handle = Except.ok none)
    (hpc : st.profileCache = none)
    (hload : config.loadProfiles (some handle) = Except.ok (p :: rest)) :
    (resolveUserConfigured config st now handle).result = some (normalizeProfile p)
    ∧ (normalizeProfile p).source = Source.profile
    ∧ (normalizeProfile p).handle =
        (match p.metadata.handle with
         | some s => if s = "" then p.slug else s
         | none => p.slug)
    ∧ (normalizeProfile p).displayName =
        (match p.metadata.name with
         | some n => if n = "" then
             (match p.metadata.displayName with
              | some d => if d = "" then p.slug else d
              | none => p.slug) else n
         | none =>
             (match p.metadata.displayName with
              | some d => if d = "" then p.slug else d
              | none => p.slug))
    ∧ (normalizeProfile p).role =
        (match p.metadata.role with
         | some r => if r = "" then "member" else r
         | none => "member")
    ∧ (normalizeProfile p).website =
        (match p.metadata.website with
         | some w => if w = "" then
             (match p.metadata.social with
              | some s => s.website
              | none => none) else some w
         | none =>
             (match p.metadata.social with
              | some s => s.website
              | none => none))
    ∧ (normalizeProfile p).avatar = p.metadata.avatar
    ∧ (normalizeProfile p).bio = p.metadata.bio
    ∧ (normalizeProfile p).pronouns = p.metadata.pronouns
    ∧ (normalizeProfile p).location = p.metadata.location := by
  refine ⟨?_, rfl, ?_, ?_, ?_, ?_, rfl, rfl, rfl, rfl⟩
  · rw [resolve_store_miss config st now handle hstore]
    apply afterStore_of_profile_some
    rw [fromProfile_of_none config st now handle hpc, loadAndStore, hload]
  · show jsOr p.metadata.handle p.slug = _
    cases p.metadata.handle <;> rfl
  · show jsOr (jsOrOpt p.metadata.name p.metadata.displayName) p.slug = _
    cases hn : p.metadata.name with
    | none => cases p.metadata.displayName <;> rfl
    | some n =>
        by_cases he : n = "" <;> cases p.metadata.displayName <;> simp [jsOr, jsOrOpt, he]
  · show jsOr p.metadata.role "member" = _
    cases p.metadata.role <;> rfl
  · show jsOrOpt p.metadata.website (p.metadata.social.bind SocialLinks.website) = _
    cases hw : p.metadata.website with
    | none => cases p.metadata.social <;> rfl
    | some w =>
        by_cases he : w = "" <;> cases p.metadata.social <;> simp [jsOrOpt, he]

/-- C8 witness: the s2 scenario. The store is empty, the profile source
returns one record with slug s2 and only displayName DN; resolving s2
yields display name DN, role member, handle s2, source tag profile. -/
theorem c8_profile_normalization_witness :
    cfgProfileS2.findUserByHandle "s2" = Except.ok none
    ∧ initialCacheState.profileCache = none
    ∧ cfgProfileS2.loadProfiles (some "s2") = Except.ok [s2Profile]
    ∧ (resolveUserConfigured cfgProfileS2 initialCacheState 0 "s2").result =
        some (normalizeProfile s2Profile)
    ∧ (normalizeProfile s2Profile).displayName = "DN"
    ∧ (normalizeProfile s2Profile).role = "member"
    ∧ (normalizeProfile s2Profile).handle = "s2"
    ∧ (normalizeProfile s2Profile).source = Source.profile :=
  ⟨rfl, rfl, rfl,
    (c8_profile_normalization cfgProfileS2 initialCacheState 0 "s2" s2Profile []
      rfl rfl rfl).1,
    by decide, by decide, by decide, rfl⟩

/-- C10: present-but-empty optional metadata strings behave as absent in
the normalization chains: an empty role yields member, an empty handle
falls back to the slug, an empty name falls through to displayName and
then the slug, and an empty website falls through to the secondary-contact
website. -/
theorem c10_empty_string_falsy (p : Profile) :
    (p.metadata.role = some "" → (normalizeProfile p).role = "member")
    ∧ (p.metadata.handle = some "" → (normalizeProfile p).handle = p.slug)
    ∧ (p.metadata.name = some "" → (normalizeProfile p).displayName =
        (match p.metadata.displayName with
         | some d => if d = "" then p.slug else d
         | none => p.slug))
    ∧ (p.metadata.website = some "" → (normalizeProfile p).website =
        (match p.metadata.social with
         | some s => s.website
         | none => none)) := by
  refine ⟨?_, ?_, ?_, ?_⟩
  · intro h
    show jsOr p.metadata.role "member" = "member"
    rw [h]
    rfl
  · intro h
    show jsOr p.metadata.handle p.slug = p.slug
    rw [h]
    rfl
  · intro h
    show jsOr (jsOrOpt p.metadata.name p.metadata.displayName) p.slug = _
    rw [h]
    cases p.metadata.displayName <;> simp [jsOr, jsOrOpt]
  · intro h
    show jsOrOpt p.metadata.website (p.metadata.social.bind SocialLinks.website) = _
    rw [h]
    cases p.metadata.social <;> simp [jsOrOpt]

/-- C10 witness: a profile whose handle, name, role and website are all
present but empty resolves the chains exactly as if they were absent. -/
theorem c10_empty_string_falsy_witness :
    emptyFieldsProfile.metadata.role = some ""
    ∧ ((normalizeProfile emptyFieldsProfile).role = "member"
      ∧ (normalizeProfile emptyFieldsProfile).handle = emptyFieldsProfile.slug
      ∧ (normalizeProfile emptyFieldsProfile).displayName =
          (match emptyFieldsProfile.metadata.displayName with
           | some d => if d = "" then emptyFieldsProfile.slug else d
           | none => emptyFieldsProfile.slug)
      ∧ (normalizeProfile emptyFieldsProfile).website =
          (match emptyFieldsProfile.metadata.social with
           | some s => s.website
           | none => none)) :=
  ⟨rfl,
    (c10_empty_string_falsy emptyFieldsProfile).1 rfl,
    (c10_empty_string_falsy emptyFieldsProfile).2.1 rfl,
    (c10_empty_string_falsy emptyFieldsProfile).2.2.1 rfl,
    (c10_empty_string_falsy emptyFieldsProfile).2.2.2 rfl⟩

/-- C9 counterexample: clearUserResolutionCache is part of the public
interface, yet invoked before configure it does not raise NotConfigured:
it returns normally, because its body never reads the configuration. -/
theorem c9_counterexample :
    clearCacheApi none initialCacheState = Except.ok initialCacheState
    ∧ clearCacheApi none stWithH = Except.ok initialCacheState :=
  ⟨rfl, rfl⟩

/-- C9 (amended): the operations that read the configuration, namely
resolveUser, userExists, getAllUserHandles and getConfig, raise
NotConfigured when invoked before configure; clearUserResolutionCache
never reads the configuration and never raises; and NotConfigured is the
only error any of these operations ever surfaces, with an error implying
the unconfigured state. -/
theorem c9_notconfigured_surface :
    (∀ (st : CacheState) (now : Nat) (handle : String),
      resolveUser none st now handle = Except.error notConfiguredMsg)
    ∧ (∀ (st : CacheState) (now : Nat) (handle : String),
      userExists none st now handle = Except.error notConfiguredMsg)
    ∧ getAllUserHandles none = Except.error notConfiguredMsg
    ∧ getConfig none = Except.error notConfiguredMsg
    ∧ (∀ (gconfig : Option UserResolutionConfig) (st : CacheState),
      clearCacheApi gconfig st = Except.ok (clearUserResolutionCache st))
    ∧ (∀ (gconfig : Option UserResolutionConfig) (st : CacheState) (now : Nat)
        (handle : String) (e : String),
      resolveUser gconfig st now handle = Except.error e →
        e = notConfiguredMsg ∧ gconfig = none)
    ∧ (∀ (gconfig : Option UserResolutionConfig) (st : CacheState) (now : Nat)
        (handle : String) (e : String),
      userExists gconfig st now handle = Except.error e →
        e = notConfiguredMsg ∧ gconfig = none)
    ∧ (∀ (gconfig : Option UserResolutionConfig) (e : String),
      getAllUserHandles gconfig = Except.error e →
        e = notConfiguredMsg ∧ gconfig = none) := by
  refine ⟨fun st now handle => rfl, fun st now handle => rfl, rfl, rfl,
    fun gconfig st => rfl, ?_, ?_, ?_⟩
  · intro gconfig st now handle e herr
    cases gconfig with
    | none =>
        injection herr with h2
        exact ⟨h2.symm, rfl⟩
    | some c => simp [resolveUser] at herr
  · intro gconfig st now handle e herr
    cases gconfig with
    | none =>
        injection herr with h2
        exact ⟨h2.symm, rfl⟩
    | some c => simp [userExists, resolveUser] at herr
  · intro gconfig e herr
    cases gconfig with
    | none =>
        injection herr with h2
        exact ⟨h2.symm, rfl⟩
    | some c => simp [getAllUserHandles] at herr

/-- C9 witness: resolving before configure surfaces exactly the
NotConfigured message, via the only-error-surfaced implication. -/
theorem c9_notconfigured_surface_witness :
    resolveUser none initialCacheState 0 "anyone" = Except.error notConfiguredMsg
    ∧ (notConfiguredMsg = notConfiguredMsg
      ∧ (none : Option UserResolutionConfig) = none) :=
  ⟨rfl,
    c9_notconfigured_surface.2.2.2.2.2.1 none initialCacheState 0 "anyone"
      notConfiguredMsg rfl⟩

end UserResolution
